import Mathlib

/-!
# Car-bon backend: shallow embedding and verification

Shallow embedding of the Car-bon backend sources
(`backend/obdparse.py`, `backend/carbcalc.py`, `backend/app.py`) in Lean 4,
with theorems settling the specification claims.

Modelling conventions:
* Python floats are modelled as exact rationals (`ℚ`); the numeric formulas
  of the source use only `+ - * /` so no rounding behaviour is lost.
* A Python function that can raise is modelled with `Option`/`Except`;
  `none` / `.error` is a raised exception.  Exception message strings are
  abbreviated to the exception class name (the code only ever compares the
  one literal message `"No valid samples"`).
* Python dict values that may be `None`, a number or a string (the
  `"value"` field of a parsed reading) are modelled by the inductive
  `OBDValue`.
-/

/-- The `"value"` field of a parsed OBD reading: a number, a string
(VIN), or Python `None`. -/
inductive OBDValue where
  | num (q : ℚ)
  | str (s : String)
  | null
deriving DecidableEq, Repr

/-- The dict returned by `parse_obd_response` on success:
`{"pid": …, "label": …, "value": …, "unit": …}`. -/
structure Reading where
  pid : String
  label : String
  value : OBDValue
  unit : String
deriving DecidableEq, Repr

/-- One hex digit to its numeric value (`0-9`, `a-f`, `A-F`). -/
def hexDigit? (c : Char) : Option ℕ :=
  if '0' ≤ c ∧ c ≤ '9' then some (c.toNat - 48)
  else if 'a' ≤ c ∧ c ≤ 'f' then some (c.toNat - 87)
  else if 'A' ≤ c ∧ c ≤ 'F' then some (c.toNat - 55)
  else none

/-- Python `int(s, 16)` on an unsigned hex-digit string: `none` models the
raised `ValueError` on an empty or non-hex token. -/
def parseHex (s : String) : Option ℕ :=
  if s.toList = [] then none
  else s.toList.foldl
    (fun acc c => acc.bind fun n => (hexDigit? c).map fun d => 16 * n + d)
    (some 0)

/-- Split a character list on whitespace runs, dropping empty tokens;
`cur` holds the characters of the token in progress, reversed. -/
def splitWsAux : List Char → List Char → List String
  | [], cur => if cur = [] then [] else [String.mk cur.reverse]
  | c :: cs, cur =>
    if c.isWhitespace then
      if cur = [] then splitWsAux cs []
      else String.mk cur.reverse :: splitWsAux cs []
    else splitWsAux cs (c :: cur)

/-- Python `response.split()`: split on whitespace runs, dropping empty
tokens. -/
def tokenize (s : String) : List String :=
  splitWsAux s.toList []

/-- Python `s.upper()` on the ASCII tokens the decoder sees. -/
def pyUpper (s : String) : String :=
  String.mk (s.toList.map Char.toUpper)

/-- The body of `parse_obd_response` after `parts = response.split()`:
dispatch on `parts` (`parts[0]` = mode, `parts[1]` = PID).  `none` models
both the explicit `return None` for short inputs and the
`except`-swallowed exceptions (missing data byte, non-hex token). -/
def parse_tokens : List String → Option Reading
  | m :: p :: d :: rest =>
    let mode := pyUpper m
    let pid := pyUpper p
    if mode = "41" then
      if pid = "0C" then do
        let A ← parseHex d
        let B ← parseHex (← rest.get? 0)
        some ⟨"010C", "Engine RPM", .num (((A * 256 + B : ℕ) : ℚ) / 4), "rpm"⟩
      else if pid = "0D" then do
        let A ← parseHex d
        some ⟨"010D", "Vehicle Speed", .num ((A : ℚ)), "km/h"⟩
      else if pid = "10" then do
        let A ← parseHex d
        let B ← parseHex (← rest.get? 0)
        some ⟨"0110", "Mass Air Flow", .num (((A * 256 + B : ℕ) : ℚ) / 100), "g/s"⟩
      else if pid = "2F" then do
        let A ← parseHex d
        some ⟨"012F", "Fuel Level", .num (((A * 100 : ℕ) : ℚ) / 255), "%"⟩
      else
        some ⟨"01" ++ pid, "Unknown PID " ++ pid, .null, ""⟩
    else if mode = "49" then
      if pid = "02" then do
        let bytes := rest.filter fun b =>
          b.toList.length = 2 ∧ b.toList.all Char.isAlphanum
        let chars ← bytes.mapM fun b => (parseHex b).map Char.ofNat
        some ⟨"0902", "VIN", .str (String.mk chars), ""⟩
      else
        some ⟨"09" ++ pid, "Unknown Mode 09 PID " ++ pid, .null, ""⟩
    else
      some ⟨mode ++ pid, "Unsupported Mode " ++ mode, .null, ""⟩
  | _ => none

/-- `parse_obd_response` from `backend/obdparse.py`: tokenize, then
dispatch; `none` is a decode failure (the Python function returns
`None`). -/
def parse_obd_response (response : String) : Option Reading :=
  parse_tokens (tokenize response)

/-- Sanity: the worked RPM example of the sources decodes as documented. -/
theorem parse_rpm_example :
    parse_obd_response "41 0C 1A F8" =
      some ⟨"010C", "Engine RPM", .num 1726, "rpm"⟩ := by
  simp +decide [parse_obd_response, parse_tokens, tokenize, splitWsAux, pyUpper,
    parseHex, hexDigit?]
  norm_num

/-- Sanity: vehicle speed decodes to the raw first data byte. -/
theorem parse_speed_example :
    parse_obd_response "41 0D 28" =
      some ⟨"010D", "Vehicle Speed", .num 40, "km/h"⟩ := by
  simp +decide [parse_obd_response, parse_tokens, tokenize, splitWsAux, pyUpper,
    parseHex, hexDigit?]

/-- Sanity: MAF divides the 16-bit value by 100. -/
theorem parse_maf_example :
    parse_obd_response "41 10 00 64" =
      some ⟨"0110", "Mass Air Flow", .num 1, "g/s"⟩ := by
  simp +decide [parse_obd_response, parse_tokens, tokenize, splitWsAux, pyUpper,
    parseHex, hexDigit?]

/-- Sanity: a one-token frame is a decode failure. -/
theorem parse_garbage_example : parse_obd_response "garbage" = none := by
  simp +decide [parse_obd_response, parse_tokens, tokenize, splitWsAux]

/-! ## Fuel property table and estimators (`backend/carbcalc.py`) -/

/-- Python `s.lower()` on the ASCII fuel-type names. -/
def pyLower (s : String) : String :=
  String.mk (s.toList.map Char.toLower)

/-- One entry of `FUEL_PROPERTIES`: a dict that may or may not carry each
key (the `"electric"` entry has only `grid_factor`). -/
structure FuelProps where
  afr : Option ℚ
  density : Option ℚ
  co2_factor : Option ℚ
  grid_factor : Option ℚ
deriving DecidableEq, Repr

/-- The static `FUEL_PROPERTIES` dict: `none` for an absent key. -/
def FUEL_PROPERTIES (k : String) : Option FuelProps :=
  if k = "gasoline" then
    some ⟨some (147 / 10), some (745 / 1000), some (23477 / 10000), none⟩
  else if k = "diesel" then
    some ⟨some (145 / 10), some (832 / 1000), some (26840 / 10000), none⟩
  else if k = "ethanol" then
    some ⟨some 9, some (789 / 1000), some (1909 / 1000), none⟩
  else if k = "electric" then
    some ⟨none, none, none, some (4 / 10)⟩
  else none

/-- Python `props[key]` on an optional field: a missing key raises
`KeyError` (modelled as `.error`). -/
def dictKey (v : Option ℚ) (key : String) : Except String ℚ :=
  match v with
  | some q => .ok q
  | none => .error ("KeyError: " ++ key)

/-- The dict returned by the combustion estimators:
`{"fuel_L_per_hour": …, "co2_kg_per_hour": …}`. -/
structure EmissionEstimate where
  fuel_L_per_hour : ℚ
  co2_kg_per_hour : ℚ
deriving DecidableEq, Repr

/-- `FUEL_PROPERTIES.get(fuel_type.lower(), FUEL_PROPERTIES["gasoline"])`:
dict `.get` with the gasoline entry as default. -/
def fuelPropsLookup (fuel_type : String) : FuelProps :=
  (FUEL_PROPERTIES (pyLower fuel_type)).getD
    ⟨some (147 / 10), some (745 / 1000), some (23477 / 10000), none⟩

/-- `calculate_from_maf` from `backend/carbcalc.py`: fuel mass flow
`maf/afr` (g/s), converted to L/h through the density, then CO₂ through
the CO₂ factor.  `.error` models the `KeyError` raised when the looked-up
entry lacks one of the three keys. -/
def calculate_from_maf (maf_gps : ℚ) (fuel_type : String := "gasoline") :
    Except String EmissionEstimate :=
  let props := fuelPropsLookup fuel_type
  match dictKey props.afr "afr" with
  | .error e => .error e
  | .ok afr =>
    match dictKey props.density "density" with
    | .error e => .error e
    | .ok density =>
      match dictKey props.co2_factor "co2_factor" with
      | .error e => .error e
      | .ok co2_factor =>
        let fuel_mass_flow_gps := maf_gps / afr
        let fuel_kg_per_s := fuel_mass_flow_gps / 1000
        let fuel_L_per_s := fuel_kg_per_s / density
        let fuel_L_per_hour := fuel_L_per_s * 3600
        let co2_kg_per_hour := fuel_L_per_hour * co2_factor
        .ok ⟨fuel_L_per_hour, co2_kg_per_hour⟩

/-- `calculate_from_fuel_rate` from `backend/carbcalc.py`: CO₂ from a
known fuel rate; identity pass-through of the rate. -/
def calculate_from_fuel_rate (fuel_rate_Lph : ℚ) (fuel_type : String := "gasoline") :
    Except String EmissionEstimate :=
  let props := fuelPropsLookup fuel_type
  match dictKey props.co2_factor "co2_factor" with
  | .error e => .error e
  | .ok co2_factor => .ok ⟨fuel_rate_Lph, fuel_rate_Lph * co2_factor⟩

/-- The dict returned by `calculate_electric`:
`{"energy_kWh": …, "co2_kg": …}`. -/
structure ElectricEstimate where
  energy_kWh : ℚ
  co2_kg : ℚ
deriving DecidableEq, Repr

/-- `calculate_electric` from `backend/carbcalc.py`.  The source computes
`factor = region_factor or FUEL_PROPERTIES["electric"]["grid_factor"]`:
Python `or` falls through to the grid factor when `region_factor` is
`None` **or** `0.0` (both are falsy). -/
def calculate_electric (energy_kWh : ℚ) (region_factor : Option ℚ := none) :
    Except String ElectricEstimate :=
  match
    (match region_factor with
     | some r => if r = 0 then gridLookup else .ok r
     | none => gridLookup) with
  | .error e => .error e
  | .ok factor => .ok ⟨energy_kWh, energy_kWh * factor⟩
where
  /-- `FUEL_PROPERTIES["electric"]["grid_factor"]` (both keys present). -/
  gridLookup : Except String ℚ :=
    match FUEL_PROPERTIES "electric" with
    | some p => dictKey p.grid_factor "grid_factor"
    | none => .error "KeyError: electric"

/-- Modelled from the spec: `calculate_from_speed_rpm_load` is imported by
`backend/app.py` from `carbcalc` but its definition is absent from the
sources.  Spec §4.2: speed-density approximation
`maf_gps = (rpm × (loadPct/100) × displacement × airDensity) / 120`, then
the same AFR/density pipeline as `fromMassAirFlow`; `speed_kmh` is
accepted but does not enter the formula. -/
def calculate_from_speed_rpm_load (speed_kmh rpm loadPct : ℚ)
    (displacement_L : ℚ := 3 / 2) (airDensity : ℚ := 6 / 5) :
    Except String EmissionEstimate :=
  let maf_gps := (rpm * (loadPct / 100) * displacement_L * airDensity) / 120
  calculate_from_maf maf_gps "gasoline"

/-! ## Trip aggregation (`summarize_trip` in `backend/carbcalc.py`) -/

/-- One element of the `samples` list passed to `summarize_trip`: a dict
whose keys `fuel_rate_Lph`, `maf_gps`, `speed_kph` and `dt` may each be
absent (`none`). -/
structure TripSample where
  fuel_rate_Lph : Option ℚ := none
  maf_gps : Option ℚ := none
  speed_kph : Option ℚ := none
  dt : Option ℚ := none
deriving DecidableEq, Repr

/-- The running totals of the `summarize_trip` loop. -/
structure TripAcc where
  total_fuel_L : ℚ := 0
  total_co2_kg : ℚ := 0
  total_time_s : ℚ := 0
  speed_sum : ℚ := 0
  speed_count : ℕ := 0
deriving DecidableEq, Repr

/-- The dict returned by `summarize_trip`. -/
structure TripTotals where
  total_fuel_L : ℚ
  total_co2_kg : ℚ
  trip_time_s : ℚ
  avg_speed_kph : ℚ
deriving DecidableEq, Repr

/-- One loop iteration of `summarize_trip` after `calc` was computed:
accumulate fuel, CO₂ and time scaled by `dt`, and the speed sum/count
when the sample reports `speed_kph`. -/
def tripStep (acc : TripAcc) (calcRes : EmissionEstimate) (dt : ℚ)
    (s : TripSample) : TripAcc :=
  { total_fuel_L := acc.total_fuel_L + calcRes.fuel_L_per_hour / 3600 * dt
    total_co2_kg := acc.total_co2_kg + calcRes.co2_kg_per_hour / 3600 * dt
    total_time_s := acc.total_time_s + dt
    speed_sum := acc.speed_sum + (s.speed_kph.getD 0)
    speed_count := acc.speed_count + (if s.speed_kph.isSome then 1 else 0) }

/-- The `for s in samples` loop of `summarize_trip`: a sample with
`fuel_rate_Lph` goes through `calculate_from_fuel_rate`, else one with
`maf_gps` through `calculate_from_maf`, else `continue`.  A `KeyError`
raised by an estimator propagates out (`summarize_trip` has no
try/except). -/
def summarize_go (fuel_type : String) : List TripSample → TripAcc →
    Except String TripAcc
  | [], acc => .ok acc
  | s :: rest, acc =>
    let dt := s.dt.getD 1
    match s.fuel_rate_Lph with
    | some fr =>
      (match calculate_from_fuel_rate fr fuel_type with
       | .error e => .error e
       | .ok calcRes => summarize_go fuel_type rest (tripStep acc calcRes dt s))
    | none =>
      match s.maf_gps with
      | some m =>
        (match calculate_from_maf m fuel_type with
         | .error e => .error e
         | .ok calcRes => summarize_go fuel_type rest (tripStep acc calcRes dt s))
      | none => summarize_go fuel_type rest acc

/-- `summarize_trip` from `backend/carbcalc.py`: run the loop from zero
totals, then `avg_speed = speed_sum / speed_count if speed_count else
0.0`. -/
def summarize_trip (samples : List TripSample) (fuel_type : String := "gasoline") :
    Except String TripTotals :=
  (summarize_go fuel_type samples {}).map fun acc =>
    ⟨acc.total_fuel_L, acc.total_co2_kg, acc.total_time_s,
      if acc.speed_count = 0 then 0 else acc.speed_sum / acc.speed_count⟩

/-! ## Endpoint and session aggregation (`backend/app.py`) -/

/-- The three arrays of a `session_data` payload, each defaulted to `[]`
by `session.get(…, [])`. -/
structure SessionData where
  rpm_hex_array : List String := []
  engine_load_hex_array : List String := []
  speed_hex_array : List String := []
deriving DecidableEq, Repr

/-- One channel's collection loop in `process_session`:
`if parsed and "value" in parsed: vals.append(parsed["value"])`.  Every
dict `parse_obd_response` returns carries the key `"value"`, so the
second conjunct is always true and the loop keeps the `value` field of
every frame whose parse did not fail — including the `None` value of
unsupported-PID placeholder readings. -/
def channel_vals (arr : List String) : List OBDValue :=
  arr.filterMap fun h => (parse_obd_response h).map fun r => r.value

/-- Python `sum(vals)` over a list of decoded values: starts from `0` and
raises `TypeError` (modelled `none`) as soon as a `None` or string value
is added. -/
def pySum : List OBDValue → ℚ → Option ℚ
  | [], acc => some acc
  | .num q :: rest, acc => pySum rest (acc + q)
  | .str _ :: _, _ => none
  | .null :: _, _ => none

/-- Python `round(x, 1)` on the exact rational value: round half to even
at one decimal. -/
def py_round1 (q : ℚ) : ℚ :=
  let x := q * 10
  let f : ℤ := ⌊x⌋
  let r : ℚ := x - f
  let n : ℤ :=
    if r < 1 / 2 then f
    else if 1 / 2 < r then f + 1
    else if f % 2 = 0 then f else f + 1
  (n : ℚ) / 10

/-- The JSON body `process_session` returns: the success dict
`{"ok": 1, "sample_count": …, "averages": …, "emissions": …}` (averages
rounded to one decimal) or either failure dict `{"ok": 0, "error": …}`.
The exception branch's `str(e)` is abbreviated to the exception class
name. -/
inductive SessionResult where
  | ok (sample_count : ℕ) (avg_rpm avg_load avg_speed : ℚ)
      (emissions : EmissionEstimate)
  | err (error : String)
deriving DecidableEq, Repr

/-- `process_session` from `backend/app.py`: collect each channel's
values, return `{"ok": 0, "error": "No valid samples"}` when the RPM or
load list is empty, otherwise average each channel (`0` for an empty
speed list) and call `calculate_from_speed_rpm_load`; any exception is
caught and returned as `{"ok": 0, "error": str(e)}`. -/
def process_session (session : SessionData) : SessionResult :=
  let rpm_vals := channel_vals session.rpm_hex_array
  let load_vals := channel_vals session.engine_load_hex_array
  let speed_vals := channel_vals session.speed_hex_array
  if rpm_vals = [] ∨ load_vals = [] then .err "No valid samples"
  else
    match pySum rpm_vals 0 with
    | none => .err "TypeError"
    | some rpm_sum =>
      match pySum load_vals 0 with
      | none => .err "TypeError"
      | some load_sum =>
        match
          if speed_vals = [] then some (0 : ℚ)
          else (pySum speed_vals 0).map fun s => s / speed_vals.length with
        | none => .err "TypeError"
        | some avg_speed =>
          let avg_rpm := rpm_sum / rpm_vals.length
          let avg_load := load_sum / load_vals.length
          match calculate_from_speed_rpm_load avg_speed avg_rpm avg_load with
          | .error e => .err e
          | .ok emissions =>
            .ok rpm_vals.length (py_round1 avg_rpm) (py_round1 avg_load)
              (py_round1 avg_speed) emissions

/-- The request body of `POST /obd-data` (`OBDPayload` in
`backend/app.py`); every field is optional. -/
structure OBDPayload where
  rpm_hex : Option String := none
  engine_load_hex : Option String := none
  intake_manifold_hex : Option String := none
  speed_kmh : Option ℚ := none
  session_data : Option SessionData := none

/-- `if payload.x_hex: parsed_data["x"] = parse_obd_response(payload.x_hex)`:
`none` when the field is absent or the falsy empty string (key not added
to `parsed_data`), otherwise the parse result (which is `None` on a
decode failure). -/
def hexEntry (h : Option String) : Option (Option Reading) :=
  match h with
  | some s => if s = "" then none else some (parse_obd_response s)
  | none => none

/-- `parsed_data.get(key, {}).get("value", 0)`: an absent key yields the
default `0`; a present key whose stored value is `None` (failed decode)
raises `AttributeError` on the inner `.get`. -/
def pv_get (entry : Option (Option Reading)) : Except String OBDValue :=
  match entry with
  | none => .ok (.num 0)
  | some none => .error "AttributeError"
  | some (some r) => .ok r.value

/-- Python `v > 0` on a decoded value: comparing `None` or a string with
`0` raises `TypeError`. -/
def pyGtZero : OBDValue → Except String Bool
  | .num q => .ok (decide (0 < q))
  | .null => .error "TypeError"
  | .str _ => .error "TypeError"

/-- The JSON body of the single-reading branch of `receive_obd_data`:
`{"ok": 1, "parsed": …, "speed_kmh": …, "emissions": …}`. -/
structure SingleResponse where
  parsed_rpm : Option (Option Reading)
  parsed_engine_load : Option (Option Reading)
  parsed_intake_manifold : Option (Option Reading)
  speed_kmh : ℚ
  emissions : Option EmissionEstimate
deriving DecidableEq, Repr

/-- A response of the `POST /obd-data` endpoint: the session dict or the
single-reading dict. -/
inductive EndpointResponse where
  | session (r : SessionResult)
  | single (r : SingleResponse)
deriving DecidableEq, Repr

/-- `receive_obd_data` from `backend/app.py`.  The session branch is the
fully try/except-guarded `process_session`; the single-reading branch has
no exception handler, so `.error` models a raised fault escaping to the
transport layer.  (`speed = payload.speed_kmh or 0` coincides with
`getD 0` because the falsy values `None` and `0.0` both yield `0`.) -/
def receive_obd_data (p : OBDPayload) : Except String EndpointResponse :=
  match p.session_data with
  | some s => .ok (.session (process_session s))
  | none =>
    let parsed_rpm := hexEntry p.rpm_hex
    let parsed_load := hexEntry p.engine_load_hex
    let parsed_im := hexEntry p.intake_manifold_hex
    match pv_get parsed_rpm with
    | .error e => .error e
    | .ok rpm =>
      match pv_get parsed_load with
      | .error e => .error e
      | .ok load =>
        let speed := p.speed_kmh.getD 0
        match pyGtZero rpm with
        | .error e => .error e
        | .ok rpmPos =>
          match (if rpmPos then pyGtZero load else .ok false) with
          | .error e => .error e
          | .ok cond =>
            match
              (if cond then
                match rpm, load with
                | .num rq, .num lq =>
                  match calculate_from_speed_rpm_load speed rq lq with
                  | .ok est => .ok (some est)
                  | .error er => .error er
                | _, _ => .error "TypeError"
              else .ok none :
                Except String (Option EmissionEstimate)) with
            | .error e => .error e
            | .ok emissions =>
              .ok (.single ⟨parsed_rpm, parsed_load, parsed_im, speed, emissions⟩)

/-! ## Claims -/

/-- C1: `calculate_from_speed_rpm_load(speed_kmh, rpm, loadPct,
displacement_L=1.5, airDensity=1.2)` computes
`maf_gps = (rpm × (loadPct/100) × displacement × airDensity) / 120` and
feeds it through the same AFR/density pipeline as `calculate_from_maf`;
`speed_kmh` is accepted but does not enter the formula. -/
theorem c1_from_speed_rpm_load_formula :
    ∀ (speed speed2 rpm loadPct d a : ℚ),
      calculate_from_speed_rpm_load speed rpm loadPct d a =
        calculate_from_maf ((rpm * (loadPct / 100) * d * a) / 120) "gasoline" ∧
      calculate_from_speed_rpm_load speed rpm loadPct d a =
        calculate_from_speed_rpm_load speed2 rpm loadPct d a ∧
      calculate_from_speed_rpm_load speed rpm loadPct =
        calculate_from_speed_rpm_load speed rpm loadPct (3 / 2) (6 / 5) :=
  fun _ _ _ _ _ _ => ⟨rfl, rfl, rfl⟩

/-- C3: the claim says a frame with mode `41` and PID `04` decodes to an
Engine Load reading `(A×100)/255 %`; the decoder in
`backend/obdparse.py` has no branch for PID `04` and returns the
unknown-PID placeholder with a null value instead (so `backend/app.py`
can never obtain an engine-load number). -/
theorem c3_pid04_returns_placeholder :
    parse_obd_response "41 04 7F" =
      some ⟨"0104", "Unknown PID 04", .null, ""⟩ ∧
    (parse_obd_response "41 04 7F").map (fun r => r.value) ≠
      some (.num (((127 * 100 : ℕ) : ℚ) / 255)) := by
  constructor
  · decide
  · decide

/-- C10: the entry `"electric"` is present in `FUEL_PROPERTIES`, so
`dict.get` does not substitute the gasoline default; the subsequent
`props["afr"]` / `props["co2_factor"]` lookups raise `KeyError` and no
estimate is returned. -/
theorem c10_electric_no_gasoline_fallback :
    ∀ x : ℚ,
      calculate_from_maf x "electric" = .error "KeyError: afr" ∧
      calculate_from_fuel_rate x "electric" = .error "KeyError: co2_factor" :=
  fun _ => ⟨rfl, rfl⟩

/-- C5 counterexample: `decode("41 FF 00")` carries the label
`"Unknown PID FF"`, not the label `"Unsupported PID FF"` stated by the
claim. -/
theorem c5_label_counterexample :
    (parse_obd_response "41 FF 00").map (fun r => r.label) =
      some "Unknown PID FF" ∧
    "Unknown PID FF" ≠ "Unsupported PID FF" := by
  constructor
  · decide
  · decide

/-- C5 (amended): for every well-formed frame whose mode is `41` or `49`
and whose PID is not in the dispatch table, decoding returns a Reading
(not a failure) with a null value, empty unit, pidCode equal to the
mode-complement concatenated with the PID, and label `"Unknown PID
<pid>"` (mode 41) resp. `"Unknown Mode 09 PID <pid>"` (mode 49). -/
theorem c5_unknown_pid_reading :
    (∀ (m p d : String) (rest : List String),
        pyUpper m = "41" →
        pyUpper p ∉ (["0C", "0D", "10", "2F"] : List String) →
        parse_tokens (m :: p :: d :: rest) =
          some ⟨"01" ++ pyUpper p, "Unknown PID " ++ pyUpper p, .null, ""⟩) ∧
    (∀ (m p d : String) (rest : List String),
        pyUpper m = "49" → pyUpper p ≠ "02" →
        parse_tokens (m :: p :: d :: rest) =
          some ⟨"09" ++ pyUpper p, "Unknown Mode 09 PID " ++ pyUpper p,
            .null, ""⟩) := by
  constructor
  · intro m p d rest hm hp
    simp only [List.mem_cons, List.mem_singleton, not_or] at hp
    obtain ⟨h1, h2, h3, h4⟩ := hp
    simp [parse_tokens, hm, h1, h2, h3, h4]
  · intro m p d rest hm hp
    simp [parse_tokens, hm, hp]

/-- C5 witness: the amended statement applied to the frame
`["41", "FF", "00"]`. -/
theorem c5_unknown_pid_reading_witness :
    parse_tokens ["41", "FF", "00"] =
      some ⟨"01" ++ pyUpper "FF", "Unknown PID " ++ pyUpper "FF", .null, ""⟩ :=
  c5_unknown_pid_reading.1 "41" "FF" "00" [] (by decide) (by decide)

/-- C9 counterexample: with `regionFactor = 0` supplied, the code falls
back to the grid factor `0.4` (Python `or` treats `0.0` as falsy), so the
CO₂ is `0.4`, not `energy × 0 = 0`. -/
theorem c9_zero_region_factor_counterexample :
    calculate_electric 1 (some 0) = .ok ⟨1, 2 / 5⟩ ∧
    (2 / 5 : ℚ) ≠ 1 * 0 := by
  constructor
  · simp [calculate_electric, calculate_electric.gridLookup, FUEL_PROPERTIES,
      dictKey, Bind.bind, Except.bind]
    norm_num
  · norm_num

/-- C9 (amended): `calculate_electric` returns
`co2_kg = energy_kWh × regionFactor` whenever a nonzero `regionFactor`
is supplied; when `regionFactor` is absent **or zero**, it uses the
electric `grid_factor` `0.4`. -/
theorem c9_electric_factor_selection :
    (∀ (e r : ℚ), r ≠ 0 → calculate_electric e (some r) = .ok ⟨e, e * r⟩) ∧
    (∀ e : ℚ, calculate_electric e none = .ok ⟨e, e * (4 / 10)⟩) ∧
    (∀ e : ℚ, calculate_electric e (some 0) = .ok ⟨e, e * (4 / 10)⟩) := by
  refine ⟨fun e r hr => ?_, fun e => ?_, fun e => ?_⟩
  · simp [calculate_electric, hr]
  · simp [calculate_electric, calculate_electric.gridLookup, FUEL_PROPERTIES,
      dictKey]
  · simp [calculate_electric, calculate_electric.gridLookup, FUEL_PROPERTIES,
      dictKey]

/-- C9 witness: the amended statement applied at `energy = 2`,
`regionFactor = 3`. -/
theorem c9_electric_factor_selection_witness :
    calculate_electric 2 (some 3) = .ok ⟨2, 2 * 3⟩ :=
  c9_electric_factor_selection.1 2 3 (by norm_num)

/-- C6: for every maf value and fuel type, when `calculate_from_maf`
succeeds, feeding its fuel rate through `calculate_from_fuel_rate`
reproduces exactly the same CO₂ rate (both paths multiply the same fuel
rate by the same `co2_factor` of the same looked-up entry). -/
theorem c6_maf_fuel_rate_consistency :
    ∀ (x : ℚ) (t : String) (e : EmissionEstimate),
      calculate_from_maf x t = .ok e →
      calculate_from_fuel_rate e.fuel_L_per_hour t =
        .ok ⟨e.fuel_L_per_hour, e.co2_kg_per_hour⟩ := by
  intro x t e h
  cases hafr : (fuelPropsLookup t).afr with
  | none =>
    simp [calculate_from_maf, dictKey, hafr] at h
  | some afr =>
    cases hden : (fuelPropsLookup t).density with
    | none =>
      simp [calculate_from_maf, dictKey, hafr, hden] at h
    | some den =>
      cases hco2 : (fuelPropsLookup t).co2_factor with
      | none =>
        simp [calculate_from_maf, dictKey, hafr, hden, hco2] at h
      | some c =>
        simp only [calculate_from_maf, dictKey, hafr, hden, hco2,
          Except.ok.injEq] at h
        simp only [calculate_from_fuel_rate, dictKey, hco2, Except.ok.injEq]
        rw [← h]

/-- C6 witness: the consistency statement applied at
`maf_gps = 1`, fuel type `"gasoline"`. -/
theorem c6_maf_fuel_rate_consistency_witness :
    calculate_from_fuel_rate ((2400 : ℚ) / 7301) "gasoline" =
      .ok ⟨(2400 : ℚ) / 7301, (140862 : ℚ) / 182525⟩ := by
  have hp : fuelPropsLookup "gasoline" =
      ⟨some (147 / 10), some (745 / 1000), some (23477 / 10000), none⟩ := rfl
  have h : calculate_from_maf 1 "gasoline" =
      .ok ⟨(2400 : ℚ) / 7301, (140862 : ℚ) / 182525⟩ := by
    simp only [calculate_from_maf, hp, dictKey, Except.ok.injEq,
      EmissionEstimate.mk.injEq]
    norm_num
  exact c6_maf_fuel_rate_consistency 1 "gasoline" _ h

/-- C2: the claim says unsupported-PID readings are excluded from a
channel's valid values before the mean; in the code the guard
`if parsed and "value" in parsed` is vacuous for any returned dict, so
the `None` value of an unsupported-PID placeholder IS kept in the
channel list, and the subsequent `sum()` raises `TypeError` (caught and
turned into a generic error) instead of averaging without it. -/
theorem c2_unsupported_pid_value_kept :
    channel_vals ["41 0C 1A F8", "41 FF 00"] = [.num 1726, .null] ∧
    process_session ⟨["41 0C 1A F8"], ["41 FF 00"], []⟩ = .err "TypeError" := by
  constructor
  · simp +decide [channel_vals, parse_obd_response, parse_tokens, tokenize,
      splitWsAux, pyUpper, parseHex, hexDigit?]
    norm_num
  · simp +decide [process_session, channel_vals, parse_obd_response,
      parse_tokens, tokenize, splitWsAux, pyUpper, parseHex, hexDigit?, pySum]

/-- C7: the claim says `process_session` fails with `NoValidSamples`
exactly when the RPM or load channel yields zero valid decoded values;
a channel holding only an unsupported-PID frame yields zero valid values
yet produces the generic `TypeError`-derived error, not
`"No valid samples"` (an empty or all-decode-failure channel does). -/
theorem c7_zero_valid_channel_error_mismatch :
    process_session ⟨["41 FF 00"], ["41 0C 1A F8"], []⟩ = .err "TypeError" ∧
    process_session ⟨[], ["41 0C 1A F8"], []⟩ = .err "No valid samples" ∧
    process_session ⟨["41 0C 1A F8"], ["garbage"], []⟩ =
      .err "No valid samples" ∧
    "TypeError" ≠ "No valid samples" := by
  refine ⟨?_, ?_, ?_, by decide⟩
  · simp +decide [process_session, channel_vals, parse_obd_response,
      parse_tokens, tokenize, splitWsAux, pyUpper, parseHex, hexDigit?, pySum]
  · simp +decide [process_session, channel_vals, parse_obd_response,
      parse_tokens, tokenize, splitWsAux, pyUpper, parseHex, hexDigit?]
  · simp +decide [process_session, channel_vals, parse_obd_response,
      parse_tokens, tokenize, splitWsAux, pyUpper, parseHex, hexDigit?]

/-- C4: the claim says no raised fault ever reaches the transport
boundary in either path; the single-reading branch of
`receive_obd_data` has no exception handler, and a failed decode
(`parsed_data["rpm"] = None`, then `None.get("value", 0)`) raises
`AttributeError`, while a null-valued placeholder reading raises
`TypeError` at `rpm > 0`.  The session branch is fully guarded and
always returns a structured result. -/
theorem c4_single_reading_unhandled_fault :
    receive_obd_data { rpm_hex := some "garbage" } = .error "AttributeError" ∧
    receive_obd_data { rpm_hex := some "41 FF 00" } = .error "TypeError" ∧
    (∀ s : SessionData, ∃ r : SessionResult,
        receive_obd_data { session_data := some s } = .ok (.session r)) := by
  refine ⟨rfl, rfl, fun s => ⟨process_session s, rfl⟩⟩

/-- A trip sample contributes to the totals when it carries
`fuel_rate_Lph` or `maf_gps` (otherwise the loop `continue`s past it). -/
def contributes (s : TripSample) : Bool :=
  s.fuel_rate_Lph.isSome || s.maf_gps.isSome

/-- The `speed_kph` values reported by a list of samples (claim-side
notion used to state the average-speed behaviour). -/
def reportedSpeeds (samples : List TripSample) : List ℚ :=
  samples.filterMap fun s => s.speed_kph

/-- C8 counterexample: a sample that reports `speed_kph = 100` but lacks
both `fuel_rate_Lph` and `maf_gps` is skipped entirely, so the returned
average speed is `0`, while the claim's formula (sum of reported speeds
over the count of samples reporting speed) gives `100`. -/
theorem c8_skipped_sample_speed_counterexample :
    summarize_trip [{ speed_kph := some 100, dt := some 1 }] "gasoline" =
      .ok ⟨0, 0, 0, 0⟩ ∧
    (reportedSpeeds [{ speed_kph := some 100, dt := some 1 }]).sum /
      ((reportedSpeeds [{ speed_kph := some 100, dt := some 1 }]).length : ℚ) =
      100 ∧
    (0 : ℚ) ≠ 100 := by
  refine ⟨rfl, ?_, by norm_num⟩
  simp only [reportedSpeeds, List.filterMap_cons, List.filterMap_nil]
  norm_num

/-- Loop invariant of `summarize_go`: on success, the final speed sum and
count extend the accumulator by exactly the reported speeds of the
contributing samples. -/
theorem summarize_go_speed (ft : String) :
    ∀ (samples : List TripSample) (acc fin : TripAcc),
      summarize_go ft samples acc = .ok fin →
      fin.speed_sum = acc.speed_sum +
          (reportedSpeeds (samples.filter contributes)).sum ∧
      fin.speed_count = acc.speed_count +
          (reportedSpeeds (samples.filter contributes)).length := by
  intro samples
  induction samples with
  | nil =>
    intro acc fin h
    simp only [summarize_go, Except.ok.injEq] at h
    subst h
    simp [reportedSpeeds]
  | cons s rest ih =>
    intro acc fin h
    cases hfr : s.fuel_rate_Lph with
    | some fr =>
      rw [summarize_go, hfr] at h
      simp only at h
      cases hc : calculate_from_fuel_rate fr ft with
      | error e => rw [hc] at h; exact absurd h (by simp)
      | ok calcRes =>
        rw [hc] at h
        simp only at h
        obtain ⟨h1, h2⟩ := ih _ _ h
        have hfilter : List.filter contributes (s :: rest) =
            s :: List.filter contributes rest := by
          simp [List.filter_cons, contributes, hfr]
        rw [hfilter]
        cases hsp : s.speed_kph with
        | some v =>
          refine ⟨?_, ?_⟩
          · rw [h1]
            simp [tripStep, reportedSpeeds, List.filterMap_cons, hsp]
            ring
          · rw [h2]
            simp [tripStep, reportedSpeeds, List.filterMap_cons, hsp]
            omega
        | none =>
          refine ⟨?_, ?_⟩
          · rw [h1]
            simp [tripStep, reportedSpeeds, List.filterMap_cons, hsp]
          · rw [h2]
            simp [tripStep, reportedSpeeds, List.filterMap_cons, hsp]
    | none =>
      cases hm : s.maf_gps with
      | some m =>
        rw [summarize_go, hfr, hm] at h
        simp only at h
        cases hc : calculate_from_maf m ft with
        | error e => rw [hc] at h; exact absurd h (by simp)
        | ok calcRes =>
          rw [hc] at h
          simp only at h
          obtain ⟨h1, h2⟩ := ih _ _ h
          have hfilter : List.filter contributes (s :: rest) =
              s :: List.filter contributes rest := by
            simp [List.filter_cons, contributes, hm]
          rw [hfilter]
          cases hsp : s.speed_kph with
          | some v =>
            refine ⟨?_, ?_⟩
            · rw [h1]
              simp [tripStep, reportedSpeeds, List.filterMap_cons, hsp]
              ring
            · rw [h2]
              simp [tripStep, reportedSpeeds, List.filterMap_cons, hsp]
              omega
          | none =>
            refine ⟨?_, ?_⟩
            · rw [h1]
              simp [tripStep, reportedSpeeds, List.filterMap_cons, hsp]
            · rw [h2]
              simp [tripStep, reportedSpeeds, List.filterMap_cons, hsp]
      | none =>
        rw [summarize_go, hfr, hm] at h
        simp only at h
        obtain ⟨h1, h2⟩ := ih _ _ h
        have hfilter : List.filter contributes (s :: rest) =
            List.filter contributes rest := by
          simp [List.filter_cons, contributes, hfr, hm]
        rw [hfilter]
        exact ⟨h1, h2⟩

/-- C8 (amended): every sample lacking both `fuel_rate_Lph` and `maf_gps`
is skipped entirely — it contributes neither to the totals, to the trip
time, nor to the speed average — and the average speed is the sum of the
`speed_kph` values of the **contributing** samples divided by the count
of contributing samples that report `speed_kph` (0 when there are none). -/
theorem c8_skip_and_contributing_avg_speed :
    (∀ (ft : String) (s : TripSample) (rest : List TripSample),
        s.fuel_rate_Lph = none → s.maf_gps = none →
        summarize_trip (s :: rest) ft = summarize_trip rest ft) ∧
    (∀ (ft : String) (samples : List TripSample) (out : TripTotals),
        summarize_trip samples ft = .ok out →
        out.avg_speed_kph =
          if reportedSpeeds (samples.filter contributes) = [] then 0
          else (reportedSpeeds (samples.filter contributes)).sum /
            ((reportedSpeeds (samples.filter contributes)).length : ℚ)) := by
  constructor
  · intro ft s rest h1 h2
    unfold summarize_trip
    rw [summarize_go, h1, h2]
  · intro ft samples out h
    unfold summarize_trip at h
    cases hg : summarize_go ft samples {} with
    | error e => rw [hg] at h; exact absurd h (by simp [Except.map])
    | ok fin =>
      rw [hg] at h
      simp only [Except.map, Except.ok.injEq] at h
      obtain ⟨hs, hcnt⟩ := summarize_go_speed ft samples {} fin hg
      have hs' : fin.speed_sum =
          (reportedSpeeds (samples.filter contributes)).sum := by
        simpa using hs
      have hcnt' : fin.speed_count =
          (reportedSpeeds (samples.filter contributes)).length := by
        simpa using hcnt
      subst h
      simp only [hs', hcnt', List.length_eq_zero]

/-- C8 witness: the skip statement applied to a concrete sample that
only reports a speed. -/
theorem c8_skip_and_contributing_avg_speed_witness :
    summarize_trip [{ speed_kph := some 60, dt := some 2 }] "diesel" =
      summarize_trip [] "diesel" :=
  c8_skip_and_contributing_avg_speed.1 "diesel"
    { speed_kph := some 60, dt := some 2 } [] rfl rfl
